import Mathlib

/-!
Verification of the IMO25 JSON-to-HTML converter
(`code/json_to_html_converter.py`) against its natural-language
specification.  The Python functions are shallowly embedded as Lean
definitions below; the markdown library call is abstracted as a function
parameter `md : String → String` (it is an external dependency, not code
of this repository), and everything else follows the source line by line.
-/

namespace Imo25Converter

/-! ## Python string primitive models -/

/-- Whitespace set stripped by Python `str.strip()` (ASCII part; the
inputs handled here are ASCII-whitespace only). -/
def pyIsSpace (c : Char) : Bool :=
  c = ' ' || c = '\t' || c = '\n' || c = '\r' ||
    c = Char.ofNat 11 || c = Char.ofNat 12

/-- Model of Python `str.strip()`: drop leading and trailing whitespace. -/
def pyStrip (s : String) : String :=
  ⟨((s.data.dropWhile pyIsSpace).reverse.dropWhile pyIsSpace).reverse⟩

/-- Model of Python `str.upper()` (ASCII; all texts upper-cased by the
converter are ASCII status words). -/
def pyUpper (s : String) : String :=
  ⟨s.data.map Char.toUpper⟩

/-- Fuelled worker for Python `str.replace`: leftmost, non-overlapping
replacement of pattern `p` by `r`.  The fuel is always instantiated with
the length of the scanned list, which one step always shrinks, so the
`0` fallback is never reached from `replaceChars`.  (The `p = []` case is
never used: every pattern in the source is a non-empty literal.) -/
def replaceFuel (p r : List Char) : Nat → List Char → List Char
  | _, [] => []
  | 0, c :: cs => c :: cs
  | f + 1, c :: cs =>
    if p.isPrefixOf (c :: cs) then
      r ++ replaceFuel p r f (List.drop (p.length - 1) cs)
    else
      c :: replaceFuel p r f cs

/-- Python `str.replace` on character lists. -/
def replaceChars (p r s : List Char) : List Char :=
  replaceFuel p r s.length s

/-- Model of Python `str.replace(p, r)` (all occurrences, leftmost,
non-overlapping). -/
def pyReplace (p r s : String) : String :=
  ⟨replaceChars p.data r.data s.data⟩

theorem strData_append (a b : String) : (a ++ b).data = a.data ++ b.data := by
  cases a; cases b; rfl

theorem replaceFuel_nil (p r : List Char) (f : Nat) :
    replaceFuel p r f [] = [] := by
  cases f <;> rfl

/-- The result of `replaceFuel` does not depend on the fuel as long as the
fuel covers the length of the scanned list. -/
theorem replaceFuel_fuel_irrel (p r : List Char) :
    ∀ f g s, s.length ≤ f → s.length ≤ g →
      replaceFuel p r f s = replaceFuel p r g s := by
  intro f
  induction f with
  | zero =>
    intro g s hf _
    have hs : s = [] := List.eq_nil_of_length_eq_zero (Nat.le_zero.mp hf)
    subst hs
    simp [replaceFuel_nil]
  | succ f ih =>
    intro g s hf hg
    cases s with
    | nil => simp [replaceFuel_nil]
    | cons c cs =>
      cases g with
      | zero => exact absurd hg (by simp)
      | succ g =>
        have hcs_f : cs.length ≤ f := Nat.lt_succ_iff.mp hf
        have hcs_g : cs.length ≤ g := Nat.lt_succ_iff.mp hg
        by_cases h : p.isPrefixOf (c :: cs)
        · have hd : (List.drop (p.length - 1) cs).length ≤ cs.length := by
            simp [List.length_drop]
          simp only [replaceFuel, h, if_true]
          rw [ih g _ (Nat.le_trans hd hcs_f) (Nat.le_trans hd hcs_g)]
        · simp only [replaceFuel, h, Bool.false_eq_true, if_false]
          rw [ih g cs hcs_f hcs_g]

/-- Replacing in `p ++ t` first consumes the leading occurrence of `p`. -/
theorem replaceChars_append_self (p r t : List Char) (hp : p ≠ []) :
    replaceChars p r (p ++ t) = r ++ replaceChars p r t := by
  obtain ⟨c, cs, rfl⟩ := List.exists_cons_of_ne_nil hp
  have hpre : (c :: cs).isPrefixOf ((c :: cs) ++ t) := by
    rw [List.isPrefixOf_iff_prefix]
    exact List.prefix_append _ _
  have hlen : ((c :: cs) ++ t).length = (cs ++ t).length + 1 := by simp
  unfold replaceChars
  rw [hlen]
  show (if (c :: cs).isPrefixOf ((c :: cs) ++ t) then
          _ ++ replaceFuel _ _ _ (List.drop ((c :: cs).length - 1) (cs ++ t))
        else _) = _
  rw [if_pos hpre]
  have hdrop : List.drop ((c :: cs).length - 1) (cs ++ t) = t := by
    simp [List.drop_left]
  rw [hdrop]
  congr 1
  exact replaceFuel_fuel_irrel (c :: cs) r (cs ++ t).length t.length t
    (by simp) (Nat.le_refl _)

/-- Characters that differ from the pattern's head are copied verbatim:
replacement in `s1 ++ s2` leaves `s1` untouched when no character of `s1`
can start a match. -/
theorem replaceChars_append_left (hd : Char) (ptl r : List Char) :
    ∀ s1 s2 : List Char, (∀ c ∈ s1, c ≠ hd) →
      replaceChars (hd :: ptl) r (s1 ++ s2) =
        s1 ++ replaceChars (hd :: ptl) r s2 := by
  intro s1
  induction s1 with
  | nil => intro s2 _; simp
  | cons c cs ih =>
    intro s2 hclean
    have hc : c ≠ hd := hclean c (by simp)
    have hnopre : ¬ (hd :: ptl).isPrefixOf (c :: (cs ++ s2)) := by
      simp [List.isPrefixOf]
      intro habs
      exact absurd habs.symm hc
    have hstep :
        replaceChars (hd :: ptl) r ((c :: cs) ++ s2) =
          c :: replaceFuel (hd :: ptl) r (cs ++ s2).length (cs ++ s2) := by
      unfold replaceChars
      show (if (hd :: ptl).isPrefixOf (c :: (cs ++ s2)) then _ else
          c :: replaceFuel (hd :: ptl) r (cs ++ s2).length (cs ++ s2)) = _
      rw [if_neg hnopre]
    rw [hstep]
    have htail : ∀ c' ∈ cs, c' ≠ hd := fun c' h => hclean c' (by simp [h])
    have := ih s2 htail
    unfold replaceChars at this
    rw [this]
    rfl

/-- Specification-level restatement of the list normalization: a blank
line is inserted before every `*` that immediately follows a newline,
whether or not a blank line already precedes it. -/
def listFixSpec : List Char → List Char
  | [] => []
  | [a] => [a]
  | a :: b :: rest =>
    if a = '\n' ∧ b = '*' then
      '\n' :: '\n' :: '*' :: listFixSpec rest
    else
      a :: listFixSpec (b :: rest)

theorem replaceFuel_listFix (f : Nat) :
    ∀ s : List Char, s.length ≤ f →
      replaceFuel ['\n', '*'] ['\n', '\n', '*'] f s = listFixSpec s := by
  induction f with
  | zero =>
    intro s hf
    have hs : s = [] := List.eq_nil_of_length_eq_zero (Nat.le_zero.mp hf)
    subst hs; rfl
  | succ f ih =>
    intro s hf
    match s with
    | [] => rfl
    | [a] =>
      have hnopre : ¬ (['\n', '*'].isPrefixOf [a]) := by
        simp [List.isPrefixOf]
      show (if ['\n', '*'].isPrefixOf [a] then _ else
          a :: replaceFuel ['\n', '*'] ['\n', '\n', '*'] f []) = _
      rw [if_neg hnopre, replaceFuel_nil]
      rfl
    | a :: b :: rest =>
      have hlen : rest.length + 2 ≤ f + 1 := by simpa using hf
      have hrest : rest.length ≤ f := by omega
      have hbrest : (b :: rest).length ≤ f := by simp; omega
      by_cases hab : a = '\n' ∧ b = '*'
      · obtain ⟨ha, hb⟩ := hab
        subst ha; subst hb
        have hpre : (['\n', '*'].isPrefixOf ('\n' :: '*' :: rest)) := by
          simp [List.isPrefixOf]
        show (if ['\n', '*'].isPrefixOf ('\n' :: '*' :: rest) then
            ['\n', '\n', '*'] ++
              replaceFuel ['\n', '*'] ['\n', '\n', '*'] f
                (List.drop (['\n', '*'].length - 1) ('*' :: rest))
          else _) = _
        rw [if_pos hpre]
        have : List.drop (['\n', '*'].length - 1) ('*' :: rest) = rest := rfl
        rw [this, ih rest hrest]
        simp [listFixSpec]
      · have hnopre : ¬ (['\n', '*'].isPrefixOf (a :: b :: rest)) := by
          simp [List.isPrefixOf]
          intro ha hb
          exact hab ⟨ha.symm, hb.symm⟩
        show (if ['\n', '*'].isPrefixOf (a :: b :: rest) then _ else
            a :: replaceFuel ['\n', '*'] ['\n', '\n', '*'] f (b :: rest)) = _
        rw [if_neg hnopre, ih (b :: rest) hbrest]
        have : listFixSpec (a :: b :: rest) = a :: listFixSpec (b :: rest) := by
          simp [listFixSpec, hab]
        rw [this]

theorem replaceChars_listFix (s : List Char) :
    replaceChars ['\n', '*'] ['\n', '\n', '*'] s = listFixSpec s :=
  replaceFuel_listFix s.length s (Nat.le_refl _)

/-! ## Model of the timestamp machinery (`format_timestamp`)

`datetime.fromisoformat` and `datetime.strftime` belong to the Python
standard library, not to this repository; they are modelled here on the
format family the converter feeds them:
`YYYY-MM-DD[<sep>HH:MM[:SS[.ffffff]]][±HH:MM]`.  Any other text parses to
`none`, matching the library's rejection (which the converter turns into
the raw-text fallback). -/

structure PyDatetime where
  year : Nat
  month : Nat
  day : Nat
  hour : Nat
  minute : Nat
  second : Nat
  microsecond : Nat
  offsetMinutes : Option Int
deriving DecidableEq

def digitVal (c : Char) : Nat := c.toNat - 48

def natOfDigits (cs : List Char) : Nat :=
  cs.foldl (fun n c => 10 * n + digitVal c) 0

/-- Read exactly `n` decimal digits, returning their value and the rest. -/
def takeDigits (n : Nat) (cs : List Char) : Option (Nat × List Char) :=
  let pre := cs.take n
  if pre.length = n ∧ pre.all Char.isDigit then
    some (natOfDigits pre, cs.drop n)
  else
    none

def expectChar (c : Char) : List Char → Option (List Char)
  | x :: xs => if x = c then some xs else none
  | [] => none

def isLeapYear (y : Nat) : Bool :=
  y % 4 = 0 && (y % 100 ≠ 0 || y % 400 = 0)

def daysInMonth (y m : Nat) : Nat :=
  if m = 2 then (if isLeapYear y then 29 else 28)
  else if m = 4 ∨ m = 6 ∨ m = 9 ∨ m = 11 then 30
  else 31

/-- Optional fractional-second part `.f{1,6}`. -/
def parseFraction : List Char → Option (Nat × List Char)
  | '.' :: rest =>
    let ds := rest.takeWhile Char.isDigit
    if 1 ≤ ds.length ∧ ds.length ≤ 6 then
      some (natOfDigits ds * 10 ^ (6 - ds.length), rest.drop ds.length)
    else
      none
  | _ => none

/-- UTC-offset suffix `±HH:MM` (or nothing). -/
def parseOffset : List Char → Option (Option Int × List Char)
  | [] => some (none, [])
  | sign :: rest =>
    if sign = '+' ∨ sign = '-' then
      match takeDigits 2 rest with
      | none => none
      | some (oh, r1) =>
        match expectChar ':' r1 with
        | none => none
        | some r2 =>
          match takeDigits 2 r2 with
          | none => none
          | some (om, r3) =>
            if r3 = [] ∧ oh < 24 ∧ om < 60 then
              some (some (if sign = '-' then -((oh * 60 + om : Nat) : Int)
                          else ((oh * 60 + om : Nat) : Int)), [])
            else none
    else none

/-- Time-of-day `HH:MM[:SS[.ffffff]]`. -/
def parseHMS (cs : List Char) : Option (Nat × Nat × Nat × Nat × List Char) := do
  let (hh, r1) ← takeDigits 2 cs
  let r2 ← expectChar ':' r1
  let (mm, r3) ← takeDigits 2 r2
  match r3 with
  | ':' :: r4 => do
    let (ss, r5) ← takeDigits 2 r4
    match parseFraction r5 with
    | some (us, r6) => some (hh, mm, ss, us, r6)
    | none => some (hh, mm, ss, 0, r5)
  | _ => some (hh, mm, 0, 0, r3)

/-- After the 10-character date, an optional single separator character,
a time of day and a UTC offset may follow. -/
def parseTimeAndOffset : List Char → Option (Nat × Nat × Nat × Nat × Option Int)
  | [] => some (0, 0, 0, 0, none)
  | _sep :: rest => do
    let (hh, mm, ss, us, r) ← parseHMS rest
    let (off, r2) ← parseOffset r
    if r2 = [] then some (hh, mm, ss, us, off) else none

/-- Model of `datetime.fromisoformat` on the converter's input family
(see the section comment above). -/
def fromisoformat (s : String) : Option PyDatetime := do
  let (y, r1) ← takeDigits 4 s.data
  let r2 ← expectChar '-' r1
  let (mo, r3) ← takeDigits 2 r2
  let r4 ← expectChar '-' r3
  let (d, r5) ← takeDigits 2 r4
  let (hh, mm, ss, us, off) ← parseTimeAndOffset r5
  if 1 ≤ y ∧ y ≤ 9999 ∧ 1 ≤ mo ∧ mo ≤ 12 ∧ 1 ≤ d ∧ d ≤ daysInMonth y mo ∧
      hh ≤ 23 ∧ mm ≤ 59 ∧ ss ≤ 59 then
    some ⟨y, mo, d, hh, mm, ss, us, off⟩
  else
    none

/-- Left-pad a decimal rendering with zeros. -/
def zfill (width : Nat) (s : String) : String :=
  if s.length < width then
    ⟨List.replicate (width - s.length) '0'⟩ ++ s
  else s

/-- Model of `datetime.strftime` with the fixed format
string used by line 31 of the converter. -/
def strftimeYmdHMS (dt : PyDatetime) : String :=
  zfill 4 (toString dt.year) ++ "-" ++ zfill 2 (toString dt.month) ++ "-" ++
    zfill 2 (toString dt.day) ++ " " ++ zfill 2 (toString dt.hour) ++ ":" ++
    zfill 2 (toString dt.minute) ++ ":" ++ zfill 2 (toString dt.second)

/-- Embedding of `format_timestamp` (lines 27-33): substitute every `Z`
by `+00:00`, try to parse, render on success, and fall back to the raw
input text on any parse failure. -/
def format_timestamp (timestamp_str : String) : String :=
  match fromisoformat (pyReplace "Z" "+00:00" timestamp_str) with
  | some dt => strftimeYmdHMS dt
  | none => timestamp_str

/-! ## Input data model (§3 of the spec)

Every field is optional, mirroring the Python `dict.get` access pattern:
`none` models an absent key (JSON `null` behaves the same way under the
converter's truthiness checks). -/

structure Verification where
  bug_report : Option String
deriving DecidableEq

structure Iteration where
  iteration : Option Nat
  correct_count : Option Nat
  error_count : Option Nat
  verification_result : Option String
  is_correct : Option Bool
  corrected_solution : Option String
  verification : Option Verification
deriving DecidableEq

structure Run where
  run_number : Option Nat
  timestamp : Option String
  status : Option String
  reason : Option String
  iterations : Option (List Iteration)
deriving DecidableEq

structure Metadata where
  problem_statement : Option String
  timestamp : Option String
  model_name : Option String
deriving DecidableEq

structure Document where
  metadata : Option Metadata
  runs : Option (List Run)
deriving DecidableEq

/-! ## Text Enricher and Hierarchical Section Renderer

The markdown library is an external dependency; every renderer takes it
as an abstract `md : String → String` parameter. -/

/-- Cleanup pipeline of `format_problem_statement` (lines 485-490):
strip the boilerplate marker, trim whitespace, normalize list spacing. -/
def problemCleanup (statement : String) : String :=
  pyReplace "\n*" "\n\n*"
    (pyStrip (pyReplace "*** Problem Statement ***\n\n" "" statement))

/-- Embedding of `format_problem_statement` (lines 480-495).  The
argument is the value found under the `problem_statement` key; Python's
`if not statement` catches the empty string. -/
def format_problem_statement (md : String → String) (statement : String) : String :=
  if statement = "" then "No problem statement provided"
  else md (problemCleanup statement)

/-- Status value with default, from line 537 (`run.get("status", "unknown")`). -/
def runStatus (r : Run) : String := r.status.getD "unknown"

/-- Badge state of a run, from line 540. -/
def runStatusClass (r : Run) : String :=
  if runStatus r == "failed" then "failed" else "success"

/-- Badge text of a run, from line 541 (`status.upper()`). -/
def runStatusText (r : Run) : String := pyUpper (runStatus r)

/-- Header block of `create_iteration_section` (lines 569-585). -/
def iterationHeaderHtml (it : Iteration) (index : Nat) : String :=
  let iteration_num := it.iteration.getD index
  let correct_count := it.correct_count.getD 0
  let error_count := it.error_count.getD 0
  let verification_result := it.verification_result.getD "unknown"
  let is_correct := it.is_correct.getD false
  "\n        <div class=\"iteration\">\n            <div class=\"iteration-header\">\n                <strong>Iteration " ++
    toString iteration_num ++
    "</strong>\n                <span class=\"status " ++
    (if is_correct then "success" else "failed") ++
    "\">\n                    " ++ pyUpper verification_result ++
    "\n                </span>\n                <small style=\"margin-left: 15px;\">\n                    Correct: " ++
    toString correct_count ++ ", Errors: " ++ toString error_count ++
    "\n                </small>\n            </div>"

/-- Solution part of `create_iteration_section` (lines 588-601): emitted
exactly when the `corrected_solution` key is present. -/
def solutionBlockHtml (md : String → String) (it : Iteration) : String :=
  match it.corrected_solution with
  | none => ""
  | some sol =>
    "\n            <button class=\"toggle-btn\">Show Solution</button>\n            <div class=\"solution-text\">" ++
      md (pyReplace "\n*" "\n\n*" sol) ++ "</div>"

/-- Verification part of `create_iteration_section` (lines 604-623):
the wrapper is emitted whenever the `verification` key is present, the
bug-report body only when `bug_report` is present inside it. -/
def verificationBlockHtml (md : String → String) (it : Iteration) : String :=
  match it.verification with
  | none => ""
  | some v =>
    "<div class=\"verification\">" ++
      "<div class=\"verification-header\">Verification Results</div>" ++
      (match v.bug_report with
       | none => ""
       | some br =>
         "<div class=\"bug-report\">" ++ "<strong>Bug Report:</strong><br>" ++
           md (pyReplace "\n*" "\n\n*" br) ++ "</div>") ++
      "</div>"

/-- Embedding of `create_iteration_section` (lines 567-626). -/
def create_iteration_section (md : String → String) (it : Iteration)
    (index : Nat) : String :=
  iterationHeaderHtml it index ++ solutionBlockHtml md it ++
    verificationBlockHtml md it ++ "</div>"

/-- Embedding of `create_run_section` (lines 533-564). -/
def create_run_section (md : String → String) (r : Run) (run_index : Nat) :
    String :=
  let run_number := r.run_number.getD run_index
  let timestamp := format_timestamp (r.timestamp.getD "")
  let reason := r.reason.getD ""
  let iterations := r.iterations.getD []
  "\n        <div class=\"run\">\n            <div class=\"run-header\">\n                <strong>Run " ++
    toString run_number ++
    "</strong>\n                <span class=\"status " ++ runStatusClass r ++
    "\">" ++ runStatusText r ++
    "</span>\n                <small style=\"float: right;\">" ++ timestamp ++
    "</small>\n            </div>\n            <div class=\"run-content\">" ++
    (if reason ≠ "" then "<p><strong>Reason:</strong> " ++ reason ++ "</p>"
     else "") ++
    (if iterations ≠ [] then
      "<h3>Iterations (" ++ toString iterations.length ++ ")</h3>" ++
        String.join (iterations.enum.map
          (fun p => create_iteration_section md p.2 p.1))
     else "") ++
    "</div></div>"

/-! ## Metadata Renderer, Statistics Aggregator, Document Assembler -/

/-- Embedding of `create_metadata_section` (lines 498-530). -/
def create_metadata_section (md : String → String) (meta : Metadata) : String :=
  "<div class=\"metadata\">" ++ "<h2>Problem Information</h2>" ++
    "<div class=\"metadata-grid\">" ++
    (match meta.problem_statement with
     | some ps =>
       "\n        <div class=\"metadata-item\">\n            <div class=\"metadata-label\">Problem Statement</div>\n            <div class=\"problem-statement\">" ++
         format_problem_statement md ps ++ "</div>\n        </div>"
     | none => "") ++
    (match meta.timestamp with
     | some ts =>
       "\n        <div class=\"metadata-item\">\n            <div class=\"metadata-label\">Timestamp</div>\n            <div class=\"metadata-value\">" ++
         format_timestamp ts ++ "</div>\n        </div>"
     | none => "") ++
    (match meta.model_name with
     | some mn =>
       "\n        <div class=\"metadata-item\">\n            <div class=\"metadata-label\">Model</div>\n            <div class=\"metadata-value\">" ++
         mn ++ "</div>\n        </div>"
     | none => "") ++
    "</div></div>"

/-- Whether a run counts as failed for the statistics (line 633:
`run.get("status") == "failed"`; an absent key yields `None`, which is
never equal to the string). -/
def runStatusIsFailed (r : Run) : Bool := r.status == some "failed"

def total_runs (d : Document) : Nat := (d.runs.getD []).length

def failed_runs (d : Document) : Nat :=
  ((d.runs.getD []).filter runStatusIsFailed).length

def successful_runs (d : Document) : Nat := total_runs d - failed_runs d

def total_iterations (d : Document) : Nat :=
  ((d.runs.getD []).map (fun r => (r.iterations.getD []).length)).sum

def total_correct (d : Document) : Nat :=
  ((d.runs.getD []).map
    (fun r => ((r.iterations.getD []).map
      (fun it => it.correct_count.getD 0)).sum)).sum

def total_errors (d : Document) : Nat :=
  ((d.runs.getD []).map
    (fun r => ((r.iterations.getD []).map
      (fun it => it.error_count.getD 0)).sum)).sum

/-- Embedding of `create_stats_section` (lines 629-688). -/
def create_stats_section (d : Document) : String :=
  "\n        <div class=\"stats\">\n            <div class=\"stat-item\">\n                <div class=\"stat-label\">Total Runs</div>\n                <div class=\"stat-value\">" ++
    toString (total_runs d) ++
    "</div>\n            </div>\n            <div class=\"stat-item\">\n                <div class=\"stat-label\">Successful Runs</div>\n                <div class=\"stat-value\">" ++
    toString (successful_runs d) ++
    "</div>\n            </div>\n            <div class=\"stat-item\">\n                <div class=\"stat-label\">Failed Runs</div>\n                <div class=\"stat-value\">" ++
    toString (failed_runs d) ++
    "</div>\n            </div>\n            <div class=\"stat-item\">\n                <div class=\"stat-label\">Total Iterations</div>\n                <div class=\"stat-value\">" ++
    toString (total_iterations d) ++
    "</div>\n            </div>\n            <div class=\"stat-item\">\n                <div class=\"stat-label\">Total Correct</div>\n                <div class=\"stat-value\">" ++
    toString (total_correct d) ++
    "</div>\n            </div>\n            <div class=\"stat-item\">\n                <div class=\"stat-label\">Total Errors</div>\n                <div class=\"stat-value\">" ++
    toString (total_errors d) ++
    "</div>\n            </div>\n        </div>"

/-- Static document shell opening (`create_html_header`, lines 36-433).
The document-independent style/script text (spec §6: static boilerplate,
out of the core's scope) is abbreviated to a constant placeholder; only
the title interpolation is dynamic in the source. -/
def htmlShellOpen (title : String) : String :=
  "<!DOCTYPE html>\n<html lang=\"en\">\n<head>\n    <meta charset=\"UTF-8\">\n    <title>" ++
    title ++
    "</title>\n    <style>STATIC-CSS</style>\n</head>\n<body>\n    <div class=\"container\">\n        <h1>" ++
    title ++ "</h1>"

/-- Static document shell closing (`create_html_footer`, lines 436-477),
abbreviated the same way. -/
def htmlShellClose : String :=
  "\n    </div>\n    <script>STATIC-JS</script>\n</body>\n</html>"

/-- Core rendering of `convert_json_to_html` (lines 714-733): shell,
metadata, statistics, run sections.  The title is derived from the file
name by glue code outside the core; it enters here as a parameter, and
the file I/O around the rendering is out of scope. -/
def convert_json_to_html (md : String → String) (title : String)
    (d : Document) : String :=
  htmlShellOpen title ++
    create_metadata_section md (d.metadata.getD ⟨none, none, none⟩) ++
    create_stats_section d ++
    (if d.runs.getD [] ≠ [] then
      "<h2>Solution Attempts</h2>" ++
        String.join ((d.runs.getD []).enum.map
          (fun p => create_run_section md p.2 p.1))
     else "") ++
    htmlShellClose

/-! ## Helper lemmas about the concrete replacements -/

theorem pyReplace_marker_strip (rest : String) :
    pyReplace "*** Problem Statement ***\n\n" ""
        ("*** Problem Statement ***\n\n" ++ rest) =
      pyReplace "*** Problem Statement ***\n\n" "" rest := by
  unfold pyReplace
  congr 1
  rw [strData_append]
  have h := replaceChars_append_self "*** Problem Statement ***\n\n".data
    "".data rest.data (by decide)
  rw [h]
  rfl

theorem pyReplace_keeps_clean_prefix (rest : String) :
    (pyReplace "\n*" "\n\n*" ("*** Problem Statement ***\n\n" ++ rest)).data =
      "*** Problem Statement ***".data ++
        (pyReplace "\n*" "\n\n*" ("\n\n" ++ rest)).data := by
  show replaceChars "\n*".data "\n\n*".data
      ("*** Problem Statement ***\n\n" ++ rest).data =
    "*** Problem Statement ***".data ++
      replaceChars "\n*".data "\n\n*".data ("\n\n" ++ rest).data
  rw [strData_append, strData_append]
  have hsplit : "*** Problem Statement ***\n\n".data =
      "*** Problem Statement ***".data ++ "\n\n".data := by decide
  rw [hsplit, List.append_assoc]
  exact replaceChars_append_left '\n' ['*'] "\n\n*".data
    "*** Problem Statement ***".data ("\n\n".data ++ rest.data) (by decide)

/-- Spec-side rewording of the iteration totalling (§3, §8). -/
def iterationCountSpec : List Run → Nat
  | [] => 0
  | r :: rs =>
    (match r.iterations with
     | none => 0
     | some its => its.length) + iterationCountSpec rs

/-! ## The claims -/

/-- C1 (counterexample): the claim says a `*` line already preceded by a
blank line is left unchanged by the list normalization, but the code's
global `replace` also doubles the newline of `"x\n\n* a"`. -/
theorem c1_list_normalization_counterexample :
    pyReplace "\n*" "\n\n*" "x\n\n* a" = "x\n\n\n* a" ∧
    ("x\n\n\n* a" : String) ≠ "x\n\n* a" := by
  decide

/-- C1 (amended): the list-normalization step inserts a blank line before
every line beginning with `*` that immediately follows a newline,
regardless of whether a blank line already precedes it (such lines gain
one more blank line). -/
theorem c1_list_normalization_amended (s : String) :
    (pyReplace "\n*" "\n\n*" s).data = listFixSpec s.data := by
  show replaceChars "\n*".data "\n\n*".data s.data = _
  have h1 : "\n*".data = ['\n', '*'] := rfl
  have h2 : "\n\n*".data = ['\n', '\n', '*'] := rfl
  rw [h1, h2]
  exact replaceChars_listFix s.data

/-- C2: `successful_runs + failed_runs = total_runs` for every document,
and a run counts as failed exactly when its status field literally equals
`"failed"` (absent or any other status counts as successful). -/
theorem c2_stats_run_invariant (d : Document) :
    (successful_runs d + failed_runs d = total_runs d) ∧
    ∀ r : Run, runStatusIsFailed r = true ↔ r.status = some "failed" := by
  constructor
  · unfold successful_runs
    exact Nat.sub_add_cancel (List.length_filter_le _ _)
  · intro r
    simp [runStatusIsFailed]

/-- C3: the run status badge is binary and case-sensitive: it carries the
failed state exactly when the status field equals `"failed"`; absent
status, `"ok"` and `"FAILED"` all yield the success state. -/
theorem c3_badge_binary (r : Run) :
    ((runStatusClass r = "failed") ↔ r.status = some "failed") ∧
    (runStatusClass r = "failed" ∨ runStatusClass r = "success") ∧
    runStatusClass ⟨none, none, none, none, none⟩ = "success" ∧
    runStatusClass ⟨none, none, some "ok", none, none⟩ = "success" ∧
    runStatusClass ⟨none, none, some "FAILED", none, none⟩ = "success" := by
  refine ⟨?_, ?_, by decide, by decide, by decide⟩
  · unfold runStatusClass runStatus
    cases hs : r.status with
    | none => decide
    | some s =>
      by_cases h : s = "failed"
      · subst h; decide
      · have hb : (s == "failed") = false := by simp [h]
        simp only [Option.getD_some, hb, Bool.false_eq_true, if_false]
        constructor
        · intro habs; exact absurd habs (by decide)
        · intro habs; exact absurd (Option.some.inj habs) h
  · unfold runStatusClass
    by_cases h : (runStatus r == "failed") = true
    · rw [if_pos h]; exact Or.inl rfl
    · rw [if_neg h]; exact Or.inr rfl

/-- C4: the timestamp formatter accepts the trailing `Z` marker by
substituting a zero UTC offset, renders a parsed value as
`YYYY-MM-DD HH:MM:SS`, and returns the raw text unchanged on any parse
failure. -/
theorem c4_timestamp_format :
    format_timestamp "2024-01-01T00:00:00Z" = "2024-01-01 00:00:00" ∧
    format_timestamp "not-a-date" = "not-a-date" ∧
    (∀ ts : String, fromisoformat (pyReplace "Z" "+00:00" ts) = none →
      format_timestamp ts = ts) ∧
    (∀ ts dt, fromisoformat (pyReplace "Z" "+00:00" ts) = some dt →
      format_timestamp ts = strftimeYmdHMS dt) := by
  refine ⟨by decide, by decide, ?_, ?_⟩
  · intro ts h; unfold format_timestamp; rw [h]
  · intro ts dt h; unfold format_timestamp; rw [h]

theorem c4_timestamp_format_witness :
    format_timestamp "2024-01-01T00:00:00Z" = "2024-01-01 00:00:00" ∧
    format_timestamp "hello" = "hello" :=
  ⟨c4_timestamp_format.1, c4_timestamp_format.2.2.1 "hello" (by decide)⟩

/-- C5: the leading `"*** Problem Statement ***"` boilerplate (with its
following blank line) is stripped on the problem-statement path, while
the corrected-solution / bug-report preprocessing (the same
`"\n*"`-spacing fix used on those paths) keeps the boilerplate text in
place. -/
theorem c5_boilerplate_strip_only_problem_path (rest : String) :
    problemCleanup ("*** Problem Statement ***\n\n" ++ rest) =
      problemCleanup rest ∧
    (pyReplace "\n*" "\n\n*" ("*** Problem Statement ***\n\n" ++ rest)).data =
      "*** Problem Statement ***".data ++
        (pyReplace "\n*" "\n\n*" ("\n\n" ++ rest)).data := by
  constructor
  · unfold problemCleanup
    rw [pyReplace_marker_strip]
  · exact pyReplace_keeps_clean_prefix rest

/-- C6: the solution-toggle control and its rich-text block are emitted
exactly when `corrected_solution` is present; an empty-string value still
emits both, an absent field emits neither. -/
theorem c6_solution_toggle (md : String → String) (it : Iteration) (i : Nat) :
    create_iteration_section md it i =
      iterationHeaderHtml it i ++ solutionBlockHtml md it ++
        verificationBlockHtml md it ++ "</div>" ∧
    (it.corrected_solution = none → solutionBlockHtml md it = "") ∧
    (∀ s, it.corrected_solution = some s →
      solutionBlockHtml md it =
        "\n            <button class=\"toggle-btn\">Show Solution</button>\n            <div class=\"solution-text\">" ++
          md (pyReplace "\n*" "\n\n*" s) ++ "</div>") := by
  refine ⟨rfl, ?_, ?_⟩
  · intro h; simp [solutionBlockHtml, h]
  · intro s h; simp [solutionBlockHtml, h]

theorem c6_solution_toggle_witness :
    solutionBlockHtml (fun t => t)
        ⟨none, none, none, none, none, some "", none⟩ =
      "\n            <button class=\"toggle-btn\">Show Solution</button>\n            <div class=\"solution-text\"></div>" ∧
    solutionBlockHtml (fun t => t)
        ⟨none, none, none, none, none, none, none⟩ = "" := by
  constructor
  · have h := (c6_solution_toggle (fun t => t)
      ⟨none, none, none, none, none, some "", none⟩ 0).2.2 "" rfl
    rw [h]; decide
  · exact (c6_solution_toggle (fun t => t)
      ⟨none, none, none, none, none, none, none⟩ 0).2.1 rfl

/-- C7: a present `verification` key triggers the verification wrapper;
without a `bug_report` inside it the wrapper is an empty shell (header
only), and an absent `verification` key emits no block at all. -/
theorem c7_verification_shell (md : String → String) (it : Iteration) :
    (it.verification = none → verificationBlockHtml md it = "") ∧
    (∀ v, it.verification = some v → v.bug_report = none →
      verificationBlockHtml md it =
        "<div class=\"verification\">" ++
          "<div class=\"verification-header\">Verification Results</div>" ++
          "</div>") ∧
    (∀ v br, it.verification = some v → v.bug_report = some br →
      verificationBlockHtml md it =
        "<div class=\"verification\">" ++
          "<div class=\"verification-header\">Verification Results</div>" ++
          ("<div class=\"bug-report\">" ++ "<strong>Bug Report:</strong><br>" ++
            md (pyReplace "\n*" "\n\n*" br) ++ "</div>") ++
          "</div>") := by
  refine ⟨?_, ?_, ?_⟩
  · intro h; simp [verificationBlockHtml, h]
  · intro v hv hbr
    simp [verificationBlockHtml, hv, hbr]
  · intro v br hv hbr
    simp [verificationBlockHtml, hv, hbr]

theorem c7_verification_shell_witness :
    verificationBlockHtml (fun t => t)
        ⟨none, none, none, none, none, none, some ⟨none⟩⟩ =
      "<div class=\"verification\">" ++
        "<div class=\"verification-header\">Verification Results</div>" ++
        "</div>" ∧
    verificationBlockHtml (fun t => t)
        ⟨none, none, none, none, none, none, none⟩ = "" := by
  constructor
  · exact (c7_verification_shell (fun t => t)
      ⟨none, none, none, none, none, none, some ⟨none⟩⟩).2.1 ⟨none⟩ rfl rfl
  · exact (c7_verification_shell (fun t => t)
      ⟨none, none, none, none, none, none, none⟩).1 rfl

/-- C8: `total_iterations` is the sum over all runs of the length of the
run's iteration sequence, a missing sequence counting as empty. -/
theorem c8_total_iterations (d : Document) :
    total_iterations d = iterationCountSpec (d.runs.getD []) := by
  unfold total_iterations
  induction d.runs.getD [] with
  | nil => rfl
  | cons r rs ih =>
    simp only [List.map_cons, List.sum_cons, iterationCountSpec, ih]
    cases r.iterations <;> rfl

/-- C9: rendering is deterministic — two renders of the same document
produce identical output text (the render is a pure function of the
document; no timestamp of the renderer's own enters the output). -/
theorem c9_render_deterministic (md : String → String) (title : String)
    (d1 d2 : Document) (h : d1 = d2) :
    convert_json_to_html md title d1 = convert_json_to_html md title d2 := by
  rw [h]

theorem c9_render_deterministic_witness :
    convert_json_to_html (fun t => t) "T" ⟨none, none⟩ =
      convert_json_to_html (fun t => t) "T" ⟨none, none⟩ :=
  c9_render_deterministic (fun t => t) "T" ⟨none, none⟩ ⟨none, none⟩ rfl

/-- C10: a run with an absent status field gets badge text `"UNKNOWN"`
(the default `"unknown"` upper-cased) in the success state. -/
theorem c10_absent_status_badge (r : Run) (h : r.status = none) :
    runStatusText r = "UNKNOWN" ∧ runStatusClass r = "success" := by
  unfold runStatusText runStatusClass runStatus
  rw [h]
  exact ⟨by decide, by decide⟩

theorem c10_absent_status_badge_witness :
    runStatusText ⟨none, none, none, none, none⟩ = "UNKNOWN" ∧
    runStatusClass ⟨none, none, none, none, none⟩ = "success" :=
  c10_absent_status_badge ⟨none, none, none, none, none⟩ rfl

end Imo25Converter
